import Mathlib

/-!
Shallow embedding of `src/ping_proxies.py` (proxy probing script).

The script probes a list of local SOCKS5 listeners: `test_single_proxy_attempt`
performs one probe attempt (primary what-is-my-IP request, then an optional
geolocation request), `test_proxy` wraps it in a bounded retry loop
(`MAX_RETRIES = 3`), `main` runs `test_proxy` over all targets on a thread
pool, collects the settled futures, sorts by port, assigns 1-based ranks and
tallies statuses.

Network effects are modelled by an explicit `AttemptEnv` describing what each
`requests.get` call did (the response received, or the exception raised),
together with the wall-clock timestamps the code reads.  Python exceptions are
modelled by their `isinstance` classification and class name.  Wall-clock
times and latency values are rationals; the `f"{elapsed:.2f}"` /
`f"{pct:.2f}"` float renderings are abstracted to the underlying numeric
value.  The `结果` dict of the script becomes the `ProbeResult` structure,
with `"-"` in the latency field modelled as `none`.
-/

/-- Configuration entry for one listener: the fields of the `proxy_info`
dict read by `test_single_proxy_attempt` (`name`, `port`, `proxy`). -/
structure ProxyInfo where
  name : String
  port : Nat
  proxy : String
deriving DecidableEq

/-- Model of an exception raised by a `requests` call, recorded through the
`isinstance` tests that the `except` chain of `test_single_proxy_attempt`
performs in order: membership in `requests.exceptions.Timeout`, in
`requests.exceptions.ProxyError`, in `requests.RequestException`, plus the
class name `type(e).__name__` used in the failure messages. -/
structure PyException where
  isTimeout : Bool
  isProxyError : Bool
  isRequestException : Bool
  name : String
deriving DecidableEq

/-- Response of the primary `https://api.ipify.org` request: its HTTP status
code and the value `response.json()["ip"]`. -/
structure PrimaryResp where
  statusCode : Nat
  ip : String
deriving DecidableEq

/-- Response of the secondary `https://ipinfo.io/<ip>/json` request: its HTTP
status code and the optional `country` / `city` / `org` fields of the JSON
body (`geo_data.get(..., '-')` supplies `"-"` when a field is absent). -/
structure GeoResp where
  statusCode : Nat
  country : Option String
  city : Option String
  org : Option String
deriving DecidableEq

instance {ε α : Type} [DecidableEq ε] [DecidableEq α] : DecidableEq (Except ε α)
  | Except.error a, Except.error b => decidable_of_iff (a = b) (by simp)
  | Except.error _, Except.ok _ => isFalse (by intro h; cases h)
  | Except.ok _, Except.error _ => isFalse (by intro h; cases h)
  | Except.ok a, Except.ok b => decidable_of_iff (a = b) (by simp)

/-- Environment of one attempt: what the network and the clock did.
`startTime` is the value of `time.time()` read before the primary request,
`endTime` the value read right after the primary response arrives (the code
computes `elapsed` from exactly these two reads), and `geoEndTime` the
wall-clock time at which the secondary geolocation response arrives — the
source never reads the clock after the geolocation call, so no output may
depend on it.  `primary` and `geo` record, for each of the two
`requests.get` calls, either the response received (`Except.ok`) or the
exception raised (`Except.error`). -/
structure AttemptEnv where
  startTime : ℚ
  endTime : ℚ
  geoEndTime : ℚ
  primary : Except PyException PrimaryResp
  geo : Except PyException GeoResp
deriving DecidableEq

/-- The per-target result dict built by `test_single_proxy_attempt`.  Field
names translate the Chinese keys: `名称`/`name`, `代理名`/`proxy_name`,
`端口`/`port`, `代理地址`/`proxy_url`, `状态`/`status`, `IP地址`/`ip_address`,
`国家/地区`/`country`, `城市`/`city`, `运营商`/`org`, `延迟(ms)`/`latency`.
The latency cell holds either the string `"-"` (modelled `none`) or
`f"{elapsed:.2f}"` (modelled as the rational `elapsed`). -/
structure ProbeResult where
  name : String
  proxy_name : String
  port : Nat
  proxy_url : String
  status : String
  ip_address : String
  country : String
  city : String
  org : String
  latency : Option ℚ
deriving DecidableEq

/-- Maximum number of total attempts per target (`MAX_RETRIES = 3`). -/
def MAX_RETRIES : Nat := 3

/-- Per-request timeout in seconds (`TIMEOUT = 8`).  The timeout mechanics
live inside the network layer and surface here as an exception with
`isTimeout = true` in the `AttemptEnv`. -/
def TIMEOUT : ℚ := 8

/-- The initial `result` dict of `test_single_proxy_attempt` (lines 55-66):
status `"失败"`, every data cell `"-"`. -/
def init_result (pi : ProxyInfo) : ProbeResult :=
  { name := pi.name
    proxy_name := pi.proxy
    port := pi.port
    proxy_url := "socks5://127.0.0.1:" ++ toString pi.port
    status := "失败"
    ip_address := "-"
    country := "-"
    city := "-"
    org := "-"
    latency := none }

/-- The `except` chain of `test_single_proxy_attempt` (lines 113-124): the
raised exception is matched against `requests.exceptions.Timeout`, then
`requests.exceptions.ProxyError`, then `requests.RequestException`, then
`Exception`, in that order, and only the status cell is updated. -/
def apply_exception (r : ProbeResult) (e : PyException) : ProbeResult :=
  if e.isTimeout then { r with status := "超时" }
  else if e.isProxyError then { r with status := "代理错误" }
  else if e.isRequestException then { r with status := "失败: " ++ e.name }
  else { r with status := "错误: " ++ e.name }

/-- One probe attempt (`test_single_proxy_attempt`, lines 43-126): issue the
primary request through the proxy, compute `elapsed` from the two clock reads
around it, and on a 200 response issue the geolocation request; a non-200
geolocation response degrades the three geo cells to `"未知"`, while an
exception raised by either request falls through to the `except` chain.
Returns the result dict and the `success` flag. -/
def test_single_proxy_attempt (pi : ProxyInfo) (env : AttemptEnv) :
    ProbeResult × Bool :=
  let result := init_result pi
  match env.primary with
  | Except.error e => (apply_exception result e, false)
  | Except.ok resp =>
    let elapsed : ℚ := (env.endTime - env.startTime) * 1000
    if resp.statusCode = 200 then
      match env.geo with
      | Except.error e => (apply_exception result e, false)
      | Except.ok geo =>
        let country := if geo.statusCode = 200 then geo.country.getD "-" else "未知"
        let city := if geo.statusCode = 200 then geo.city.getD "-" else "未知"
        let org := if geo.statusCode = 200 then geo.org.getD "-" else "未知"
        ({ result with
            status := "成功"
            ip_address := resp.ip
            country := country
            city := city
            org := org
            latency := some elapsed }, true)
    else (result, false)

/-- The retry `while` loop of `test_proxy` (lines 143-155).  `envs i` is the
environment of the zero-based attempt `i`; the loop enters with
`retry_count = 1` after the first attempt failed, increments `retry_count`,
runs attempt `retry_count - 1`, and on success returns that attempt's result
with `" (重试 {retry_count} 次)"` appended to its status.  `fuel` bounds the
recursion; calls use `fuel = MAX_RETRIES`, which the guard
`retry_count < MAX_RETRIES` never exhausts.  Also returns the number of
attempts performed inside the loop. -/
def retry_while (pi : ProxyInfo) (envs : Nat → AttemptEnv) :
    Nat → Nat → Option ProbeResult × Nat
  | _, 0 => (none, 0)
  | retry_count, fuel + 1 =>
    if retry_count < MAX_RETRIES then
      let rc := retry_count + 1
      let a := test_single_proxy_attempt pi (envs (rc - 1))
      if a.snd then
        (some { a.fst with
                  status := a.fst.status ++ " (重试 " ++ toString rc ++ " 次)" }, 1)
      else
        let rest := retry_while pi envs rc fuel
        (rest.fst, rest.snd + 1)
    else (none, 0)

/-- Full retrying probe (`test_proxy`, lines 128-159), instrumented with the
number of calls made to `test_single_proxy_attempt`.  The first attempt runs
unconditionally; on its success its result is returned unannotated; otherwise
the retry loop runs, and if it also never succeeds the FIRST attempt's result
(the local `result`, untouched by the loop) is returned with
`" (已重试 {MAX_RETRIES} 次)"` appended. -/
def test_proxy_with_count (pi : ProxyInfo) (envs : Nat → AttemptEnv) :
    ProbeResult × Nat :=
  let a0 := test_single_proxy_attempt pi (envs 0)
  if a0.snd then (a0.fst, 1)
  else
    let loop := retry_while pi envs 1 MAX_RETRIES
    match loop.fst with
    | some r => (r, loop.snd + 1)
    | none =>
      ({ a0.fst with
           status := a0.fst.status ++ " (已重试 " ++ toString MAX_RETRIES ++ " 次)" },
       loop.snd + 1)

/-- `test_proxy` proper: the record it returns. -/
def test_proxy (pi : ProxyInfo) (envs : Nat → AttemptEnv) : ProbeResult :=
  (test_proxy_with_count pi envs).fst

/-- Outcome of one settled future in `main`'s collection loop (lines
191-199): `future.result()` either returns the record produced by
`test_proxy` or re-raises an exception from the task, rendered there as
`str(e)`. -/
inductive TaskOutcome where
  | ok (r : ProbeResult)
  | raised (msg : String)
deriving DecidableEq

/-- Whether a settled future returned a record (rather than raising). -/
def TaskOutcome.is_ok : TaskOutcome → Bool
  | TaskOutcome.ok _ => true
  | TaskOutcome.raised _ => false

/-- The collection loop of `main` (lines 194-199), over the futures in
completion order: `results.append(future.result())` inside
`try ... except Exception: print(...)` — a raising task is only logged, and
appends nothing. -/
def collect_results (outcomes : List TaskOutcome) : List ProbeResult :=
  outcomes.foldl
    (fun results o =>
      match o with
      | TaskOutcome.ok r => results ++ [r]
      | TaskOutcome.raised _ => results)
    []

/-- Characters before the first occurrence of `sep` (all of them when `sep`
does not occur): the list-level core of Python's `split(sep)[0]`. -/
def take_until_sep (sep : List Char) : List Char → List Char
  | [] => []
  | c :: rest => if sep.isPrefixOf (c :: rest) then [] else c :: take_until_sep sep rest

/-- Base status of a status cell (line 235): `status.split(" (")[0]`, the text
before the first `" ("`, which strips the retry annotations appended by
`test_proxy`. -/
def base_status (s : String) : String :=
  String.mk (take_until_sep " (".data s.data)

/-- One step of the tally loop (lines 234-236):
`status_counts[base] = status_counts.get(base, 0) + 1` on an
insertion-ordered dict, modelled as an association list with unique keys. -/
def tally_add (m : List (String × Nat)) (k : String) : List (String × Nat) :=
  match m with
  | [] => [(k, 1)]
  | (k', v) :: rest =>
    if k' = k then (k', v + 1) :: rest else (k', v) :: tally_add rest k

/-- The status tally of `main` (lines 233-236): count the rows of the result
table by `base_status` of their status cell. -/
def status_tally (statuses : List String) : List (String × Nat) :=
  statuses.foldl (fun m s => tally_add m (base_status s)) []

/-- Dict lookup with default 0 (`status_counts.get(k, 0)`); the tally keeps
its keys unique, so first match is the match. -/
def lookup0 : List (String × Nat) → String → Nat
  | [], _ => 0
  | (k', v) :: rest, k => if k' = k then v else lookup0 rest k

/-- Sum of the tally's counts. -/
def sum_counts (m : List (String × Nat)) : Nat :=
  (m.map (fun p => p.snd)).sum

/-- The summary that `main` prints (lines 238-247): total target count
`len(proxies)`, the status tally over the collected results, the count for
`"成功"`, and the success percentage `success_count / len(proxies) * 100`
(whose `:.2f` rendering is abstracted to the rational value). -/
structure Summary where
  total : Nat
  counts : List (String × Nat)
  success_count : Nat
  success_pct : ℚ
deriving DecidableEq

/-- Builds the summary from the collected results and `len(proxies)`. -/
def summarize (results : List ProbeResult) (total : Nat) : Summary :=
  let counts := status_tally (results.map (fun r => r.status))
  let sc := lookup0 counts "成功"
  { total := total
    counts := counts
    success_count := sc
    success_pct := (sc : ℚ) / (total : ℚ) * 100 }

/-- Sort of the result table by the `端口` column ascending (line 216).
`pandas.sort_values` with its default algorithm is modelled as a sort by the
port key; ports serve as the only key. -/
def sort_by_port (rs : List ProbeResult) : List ProbeResult :=
  List.insertionSort (fun a b => a.port ≤ b.port) rs

/-- Reassignment of the `序号` column after the sort (line 219):
`range(1, len(df) + 1)` positionally, i.e. row `i` (zero-based) of the sorted
table gets rank `i + 1`. -/
def add_ranks (rs : List ProbeResult) : List (Nat × ProbeResult) :=
  rs.enum.map (fun p => (p.fst + 1, p.snd))

/-- The ranked, sorted result table `main` writes out (lines 213-224). -/
def main_ranked (results : List ProbeResult) : List (Nat × ProbeResult) :=
  add_ranks (sort_by_port results)

/-! Concrete fixtures used by the closed evaluations below. -/

/-- Sample listener. -/
def samplePi : ProxyInfo := { name := "节点1", port := 42000, proxy := "proxy-1" }

/-- Timeout exception; `requests.exceptions.Timeout` is a subclass of
`RequestException`, so its `isRequestException` flag is set. -/
def excTimeout : PyException :=
  { isTimeout := true, isProxyError := false, isRequestException := true
    name := "ConnectTimeout" }

/-- Proxy failure; `requests.exceptions.ProxyError` is a subclass of
`RequestException`. -/
def excProxy : PyException :=
  { isTimeout := false, isProxyError := true, isRequestException := true
    name := "ProxyError" }

/-- Successful geolocation response. -/
def geoOk : GeoResp :=
  { statusCode := 200, country := some "US", city := some "Los Angeles"
    org := some "AS15169" }

/-- Environment whose primary request raises a timeout. -/
def envTimeout : AttemptEnv :=
  { startTime := 0, endTime := 8, geoEndTime := 8
    primary := Except.error excTimeout, geo := Except.ok geoOk }

/-- Environment whose primary request raises a proxy error. -/
def envProxy : AttemptEnv :=
  { startTime := 0, endTime := 1, geoEndTime := 1
    primary := Except.error excProxy, geo := Except.ok geoOk }

/-- Environment where both requests succeed; the primary takes half a
second, the geolocation request a further half second. -/
def envOkGeoOk : AttemptEnv :=
  { startTime := 0, endTime := 1/2, geoEndTime := 1
    primary := Except.ok { statusCode := 200, ip := "1.2.3.4" }
    geo := Except.ok geoOk }

/-- Environment where the primary succeeds and the geolocation request
returns HTTP 502. -/
def envOkGeoBad : AttemptEnv :=
  { startTime := 0, endTime := 1/2, geoEndTime := 1
    primary := Except.ok { statusCode := 200, ip := "1.2.3.4" }
    geo := Except.ok { statusCode := 502, country := none, city := none, org := none } }

/-- Environment where the primary succeeds and the geolocation request
raises a timeout. -/
def envOkGeoRaises : AttemptEnv :=
  { startTime := 0, endTime := 1/2, geoEndTime := 17/2
    primary := Except.ok { statusCode := 200, ip := "1.2.3.4" }
    geo := Except.error excTimeout }

/-- Environment where the primary request returns HTTP 403. -/
def envNon200 : AttemptEnv :=
  { startTime := 0, endTime := 1/4, geoEndTime := 1/4
    primary := Except.ok { statusCode := 403, ip := "" }
    geo := Except.ok geoOk }

example : (test_single_proxy_attempt samplePi envOkGeoOk).snd = true := by decide
example :
    (test_single_proxy_attempt samplePi envOkGeoOk).fst.latency
      = some ((envOkGeoOk.endTime - envOkGeoOk.startTime) * 1000) := rfl
example : (test_single_proxy_attempt samplePi envTimeout).fst.status = "超时" := by decide
example : (test_single_proxy_attempt samplePi envOkGeoRaises).snd = false := by decide
example :
    (test_proxy samplePi (fun i => if i = 0 then envTimeout else envProxy)).status
      = "超时 (已重试 3 次)" := by decide
example :
    (test_proxy samplePi (fun i => if i = 0 then envTimeout else envOkGeoOk)).status
      = "成功 (重试 2 次)" := by decide
example : (test_proxy_with_count samplePi (fun _ => envTimeout)).snd = 3 := by decide

/-- C10: when the primary request completes without raising but returns a
non-200 status code, `test_single_proxy_attempt` returns `success = false`
with the record left at the generic initial failure shape: status `"失败"`
and the IP, country, city, operator and latency cells still holding the
`"-"` sentinel (latency modelled `none`) — distinct from the four
exception-classified failure variants. -/
theorem C10_non200_initial_failure (pi : ProxyInfo) (env : AttemptEnv)
    (resp : PrimaryResp) (hp : env.primary = Except.ok resp)
    (hs : resp.statusCode ≠ 200) :
    test_single_proxy_attempt pi env = (init_result pi, false) ∧
    (init_result pi).status = "失败" ∧ (init_result pi).ip_address = "-" ∧
    (init_result pi).country = "-" ∧ (init_result pi).city = "-" ∧
    (init_result pi).org = "-" ∧ (init_result pi).latency = none := by
  refine ⟨?_, rfl, rfl, rfl, rfl, rfl, rfl⟩
  unfold test_single_proxy_attempt
  rw [hp]
  simp [hs]

/-- C10 witness: a concrete 403 primary response yields the initial failure
record. -/
theorem C10_non200_witness :
    test_single_proxy_attempt samplePi envNon200 = (init_result samplePi, false) ∧
    (init_result samplePi).status = "失败" ∧
    (init_result samplePi).ip_address = "-" ∧
    (init_result samplePi).country = "-" ∧ (init_result samplePi).city = "-" ∧
    (init_result samplePi).org = "-" ∧ (init_result samplePi).latency = none :=
  C10_non200_initial_failure samplePi envNon200
    { statusCode := 403, ip := "" } rfl (by decide)

/-- C4 counterexample: the claim says a failing secondary geolocation lookup
never turns the attempt into a failure, but when the geolocation request
RAISES (here a timeout) after a 200 primary response, the exception falls
through to the `except` chain: the attempt returns `success = false` with
status `"超时"`. -/
theorem C4_counterexample :
    envOkGeoRaises.primary = Except.ok { statusCode := 200, ip := "1.2.3.4" } ∧
    envOkGeoRaises.geo = Except.error excTimeout ∧
    (test_single_proxy_attempt samplePi envOkGeoRaises).snd = false ∧
    (test_single_proxy_attempt samplePi envOkGeoRaises).fst.status = "超时" := by
  refine ⟨rfl, rfl, rfl, rfl⟩

/-- C4 (amended): when the primary request succeeds with a 200 response and
the secondary geolocation lookup RETURNS a non-success status (rather than
raising), the attempt is still a success, with latency populated from the
primary request's clock reads and country/city/operator set to the `"未知"`
sentinel.  When the geolocation call raises, the attempt fails (see the
counterexample). -/
theorem C4_geo_non200_still_success (pi : ProxyInfo) (env : AttemptEnv)
    (resp : PrimaryResp) (geo : GeoResp)
    (hp : env.primary = Except.ok resp) (hs : resp.statusCode = 200)
    (hg : env.geo = Except.ok geo) (hgs : geo.statusCode ≠ 200) :
    test_single_proxy_attempt pi env =
      ({ init_result pi with
          status := "成功"
          ip_address := resp.ip
          country := "未知"
          city := "未知"
          org := "未知"
          latency := some ((env.endTime - env.startTime) * 1000) }, true) := by
  unfold test_single_proxy_attempt
  rw [hp, hg]
  simp [hs, hgs]

/-- C4 witness: a concrete 502 geolocation response still yields a success
record with the `"未知"` sentinel. -/
theorem C4_geo_non200_witness :
    test_single_proxy_attempt samplePi envOkGeoBad =
      ({ init_result samplePi with
          status := "成功"
          ip_address := "1.2.3.4"
          country := "未知"
          city := "未知"
          org := "未知"
          latency := some ((envOkGeoBad.endTime - envOkGeoBad.startTime) * 1000) },
       true) :=
  C4_geo_non200_still_success samplePi envOkGeoBad
    { statusCode := 200, ip := "1.2.3.4" }
    { statusCode := 502, country := none, city := none, org := none }
    rfl rfl rfl (by decide)

/-- C5: every attempt that fails because an exception was raised (by the
primary request, or by the geolocation request after a 200 primary
response) is classified in the priority order of the `except` chain:
timeout → `"超时"`; otherwise proxy error → `"代理错误"`; otherwise any other
`RequestException` → `"失败: "` plus the exception class name; otherwise →
`"错误: "` plus the exception class name. -/
theorem C5_failure_classification (pi : ProxyInfo) (env : AttemptEnv)
    (e : PyException)
    (hp : env.primary = Except.error e ∨
      ∃ resp, env.primary = Except.ok resp ∧ resp.statusCode = 200 ∧
        env.geo = Except.error e) :
    (test_single_proxy_attempt pi env).snd = false ∧
    (e.isTimeout = true →
      (test_single_proxy_attempt pi env).fst.status = "超时") ∧
    (e.isTimeout = false → e.isProxyError = true →
      (test_single_proxy_attempt pi env).fst.status = "代理错误") ∧
    (e.isTimeout = false → e.isProxyError = false → e.isRequestException = true →
      (test_single_proxy_attempt pi env).fst.status = "失败: " ++ e.name) ∧
    (e.isTimeout = false → e.isProxyError = false → e.isRequestException = false →
      (test_single_proxy_attempt pi env).fst.status = "错误: " ++ e.name) := by
  have key : test_single_proxy_attempt pi env
      = (apply_exception (init_result pi) e, false) := by
    rcases hp with h | ⟨resp, h1, h2, h3⟩
    · unfold test_single_proxy_attempt
      rw [h]
    · unfold test_single_proxy_attempt
      rw [h1, h3]
      simp [h2]
  rw [key]
  refine ⟨rfl, ?_, ?_, ?_, ?_⟩ <;> intros <;> simp [apply_exception, *]

/-- C5 witness: a raised timeout on the primary request is classified
`"超时"`. -/
theorem C5_failure_witness :
    (test_single_proxy_attempt samplePi envTimeout).snd = false ∧
    (excTimeout.isTimeout = true →
      (test_single_proxy_attempt samplePi envTimeout).fst.status = "超时") ∧
    (excTimeout.isTimeout = false → excTimeout.isProxyError = true →
      (test_single_proxy_attempt samplePi envTimeout).fst.status = "代理错误") ∧
    (excTimeout.isTimeout = false → excTimeout.isProxyError = false →
      excTimeout.isRequestException = true →
      (test_single_proxy_attempt samplePi envTimeout).fst.status
        = "失败: " ++ excTimeout.name) ∧
    (excTimeout.isTimeout = false → excTimeout.isProxyError = false →
      excTimeout.isRequestException = false →
      (test_single_proxy_attempt samplePi envTimeout).fst.status
        = "错误: " ++ excTimeout.name) :=
  C5_failure_classification samplePi envTimeout excTimeout (Or.inl rfl)

/-- C9: on a successful attempt the reported latency is computed from
exactly the two clock reads around the primary request,
`(endTime - startTime) * 1000`; and the attempt's entire output is invariant
under the time at which the secondary geolocation response arrives, so the
geolocation request's duration is never included. -/
theorem C9_latency_primary_only (pi : ProxyInfo) (env : AttemptEnv) :
    (∀ resp geo, env.primary = Except.ok resp → resp.statusCode = 200 →
      env.geo = Except.ok geo →
      (test_single_proxy_attempt pi env).fst.latency
        = some ((env.endTime - env.startTime) * 1000)) ∧
    (∀ t, test_single_proxy_attempt pi { env with geoEndTime := t }
        = test_single_proxy_attempt pi env) := by
  constructor
  · intro resp geo hp hs hg
    unfold test_single_proxy_attempt
    rw [hp, hg]
    simp [hs]
  · intro t
    rfl

/-- Step equation of the retry loop with at least one unit of fuel. -/
theorem retry_while_succ (pi : ProxyInfo) (envs : Nat → AttemptEnv)
    (rc fuel : Nat) :
    retry_while pi envs rc (fuel + 1) =
      if rc < MAX_RETRIES then
        (if (test_single_proxy_attempt pi (envs rc)).snd then
          (some { (test_single_proxy_attempt pi (envs rc)).fst with
                    status := (test_single_proxy_attempt pi (envs rc)).fst.status
                      ++ " (重试 " ++ toString (rc + 1) ++ " 次)" }, 1)
        else
          ((retry_while pi envs (rc + 1) fuel).fst,
           (retry_while pi envs (rc + 1) fuel).snd + 1))
      else (none, 0) := rfl

/-- Exit equation of the retry loop once `retry_count` reaches
`MAX_RETRIES`. -/
theorem retry_while_stop (pi : ProxyInfo) (envs : Nat → AttemptEnv)
    (fuel : Nat) :
    retry_while pi envs MAX_RETRIES fuel = (none, 0) := by
  cases fuel <;> rfl

/-- The loop performs at most `MAX_RETRIES - retry_count` attempts. -/
theorem retry_while_snd_le (pi : ProxyInfo) (envs : Nat → AttemptEnv) :
    ∀ fuel rc, (retry_while pi envs rc fuel).snd ≤ MAX_RETRIES - rc := by
  intro fuel
  induction fuel with
  | zero => intro rc; simp [retry_while]
  | succ fuel ih =>
    intro rc
    by_cases h : rc < MAX_RETRIES
    · rw [retry_while_succ, if_pos h]
      by_cases hs : (test_single_proxy_attempt pi (envs rc)).snd = true
      · simp only [hs, if_true]
        omega
      · simp only [hs, Bool.false_eq_true, if_false]
        have := ih (rc + 1)
        omega
    · rw [retry_while_succ, if_neg h]
      simp

/-- C6: `test_proxy` calls `test_single_proxy_attempt` at most `MAX_RETRIES`
(3) times per target, whatever the attempts' outcomes: the instrumented call
count never reaches 4. -/
theorem C6_at_most_three_attempts (pi : ProxyInfo) (envs : Nat → AttemptEnv) :
    (test_proxy_with_count pi envs).snd ≤ MAX_RETRIES := by
  unfold test_proxy_with_count
  by_cases h0 : (test_single_proxy_attempt pi (envs 0)).snd = true
  · simp [h0, MAX_RETRIES]
  · simp only [h0, Bool.false_eq_true, if_false]
    have hle := retry_while_snd_le pi envs MAX_RETRIES 1
    cases hfst : (retry_while pi envs 1 MAX_RETRIES).fst with
    | some r =>
      simp only [hfst]
      simp only [MAX_RETRIES] at hle ⊢
      omega
    | none =>
      simp only [hfst]
      simp only [MAX_RETRIES] at hle ⊢
      omega

/-- C1: evaluation at a failing input where all three attempts fail, the
first raising a timeout and both retries raising proxy errors: `test_proxy`
returns the FIRST attempt's record — status `"超时 (已重试 3 次)"` — while
the final attempt's classification is `"代理错误"`.  The returned record does
not carry the final attempt's classification, contradicting the claim and
the source's own comment above line 158 (`所有重试都失败后，返回最后一次的结果`,
"after all retries fail, return the last attempt's result"): the local
`result` returned there is the first attempt's dict, never overwritten by
the loop's `retry_result`. -/
theorem C1_code_returns_first_attempt :
    (∀ i, i < MAX_RETRIES →
      (test_single_proxy_attempt samplePi
        (if i = 0 then envTimeout else envProxy)).snd = false) ∧
    (test_proxy samplePi (fun i => if i = 0 then envTimeout else envProxy)).status
      = "超时 (已重试 3 次)" ∧
    (test_single_proxy_attempt samplePi envProxy).fst.status = "代理错误" := by
  refine ⟨by decide, by decide, by decide⟩

/-- C2 counterexample: with the first attempt failing (timeout) and the
second succeeding, the returned status is annotated `" (重试 2 次)"`: the
number carried by the retry annotation is 2, the 1-based attempt number, not
1, the zero-based index of the successful attempt stated by the claim. -/
theorem C2_counterexample :
    (test_single_proxy_attempt samplePi envTimeout).snd = false ∧
    (test_single_proxy_attempt samplePi envOkGeoOk).snd = true ∧
    (test_proxy samplePi
        (fun i => if i = 0 then envTimeout else envOkGeoOk)).status
      = "成功 (重试 2 次)" ∧
    "成功 (重试 2 次)" ≠ "成功 (重试 1 次)" := by
  refine ⟨by decide, by decide, by decide, by decide⟩

/-- C2 (amended): the retry loop stops at the first successful attempt,
having made exactly `k + 1` underlying calls for a success at zero-based
attempt `k`; the annotation appended to the status carries the 1-BASED
attempt number `k + 1` (and a first-attempt success carries no annotation);
when all `MAX_RETRIES` attempts fail, the first attempt's record is
returned annotated with the count `MAX_RETRIES` = 3 (not 2), after exactly 3
calls. -/
theorem C2_retry_numbering (pi : ProxyInfo) (envs : Nat → AttemptEnv) :
    (∀ k, k < MAX_RETRIES →
      (∀ i, i < k → (test_single_proxy_attempt pi (envs i)).snd = false) →
      (test_single_proxy_attempt pi (envs k)).snd = true →
      test_proxy_with_count pi envs =
        (if k = 0 then (test_single_proxy_attempt pi (envs 0)).fst
        else
          { (test_single_proxy_attempt pi (envs k)).fst with
              status := (test_single_proxy_attempt pi (envs k)).fst.status
                ++ " (重试 " ++ toString (k + 1) ++ " 次)" },
        k + 1)) ∧
    ((∀ i, i < MAX_RETRIES →
        (test_single_proxy_attempt pi (envs i)).snd = false) →
      test_proxy_with_count pi envs =
        ({ (test_single_proxy_attempt pi (envs 0)).fst with
             status := (test_single_proxy_attempt pi (envs 0)).fst.status
               ++ " (已重试 " ++ toString MAX_RETRIES ++ " 次)" },
        MAX_RETRIES)) := by
  have s1 : retry_while pi envs 1 MAX_RETRIES =
      (if (test_single_proxy_attempt pi (envs 1)).snd then
        (some { (test_single_proxy_attempt pi (envs 1)).fst with
                  status := (test_single_proxy_attempt pi (envs 1)).fst.status
                    ++ " (重试 " ++ toString 2 ++ " 次)" }, 1)
      else
        ((retry_while pi envs 2 2).fst, (retry_while pi envs 2 2).snd + 1)) := rfl
  have s2 : retry_while pi envs 2 2 =
      (if (test_single_proxy_attempt pi (envs 2)).snd then
        (some { (test_single_proxy_attempt pi (envs 2)).fst with
                  status := (test_single_proxy_attempt pi (envs 2)).fst.status
                    ++ " (重试 " ++ toString 3 ++ " 次)" }, 1)
      else
        ((retry_while pi envs 3 1).fst, (retry_while pi envs 3 1).snd + 1)) := rfl
  have s3 : retry_while pi envs 3 1 = (none, 0) := rfl
  constructor
  · intro k hk hfail hsucc
    simp only [MAX_RETRIES] at hk
    interval_cases k
    · unfold test_proxy_with_count
      simp [hsucc]
    · have h0 := hfail 0 (by omega)
      unfold test_proxy_with_count
      simp only [h0, Bool.false_eq_true, if_false]
      rw [s1]
      simp [hsucc]
    · have h0 := hfail 0 (by omega)
      have h1 := hfail 1 (by omega)
      unfold test_proxy_with_count
      simp only [h0, Bool.false_eq_true, if_false]
      rw [s1]
      simp only [h1, Bool.false_eq_true, if_false]
      rw [s2]
      simp [hsucc]
  · intro hfail
    have h0 := hfail 0 (by decide)
    have h1 := hfail 1 (by decide)
    have h2 := hfail 2 (by decide)
    unfold test_proxy_with_count
    simp only [h0, Bool.false_eq_true, if_false]
    rw [s1]
    simp only [h1, Bool.false_eq_true, if_false]
    rw [s2]
    simp only [h2, Bool.false_eq_true, if_false]
    rw [s3]
    simp [MAX_RETRIES]

/-- C2 witness: a first-attempt timeout followed by a second-attempt success
returns the second attempt's record annotated `" (重试 2 次)"` after exactly
2 calls. -/
theorem C2_retry_numbering_witness :
    test_proxy_with_count samplePi
        (fun i => if i = 0 then envTimeout else envOkGeoOk) =
      ({ (test_single_proxy_attempt samplePi envOkGeoOk).fst with
           status := (test_single_proxy_attempt samplePi envOkGeoOk).fst.status
             ++ " (重试 " ++ toString 2 ++ " 次)" }, 2) :=
  (C2_retry_numbering samplePi
      (fun i => if i = 0 then envTimeout else envOkGeoOk)).1
    1 (by decide) (by decide) (by decide)

/-- C9 witness: a concrete successful attempt reports the primary-request
latency, and replacing the geolocation arrival time changes nothing. -/
theorem C9_latency_witness :
    (test_single_proxy_attempt samplePi envOkGeoOk).fst.latency
      = some ((envOkGeoOk.endTime - envOkGeoOk.startTime) * 1000) ∧
    test_single_proxy_attempt samplePi { envOkGeoOk with geoEndTime := 0 }
      = test_single_proxy_attempt samplePi envOkGeoOk :=
  ⟨(C9_latency_primary_only samplePi envOkGeoOk).1
      { statusCode := 200, ip := "1.2.3.4" } geoOk rfl rfl rfl,
   (C9_latency_primary_only samplePi envOkGeoOk).2 0⟩

/-- Second sample listener, with a higher port. -/
def samplePi2 : ProxyInfo := { name := "节点2", port := 42001, proxy := "proxy-2" }

/-- Concrete success record. -/
def recSuccess : ProbeResult :=
  { init_result samplePi with status := "成功", ip_address := "1.2.3.4" }

/-- Concrete timeout record with a retry annotation. -/
def recTimeout : ProbeResult :=
  { init_result samplePi2 with status := "超时 (已重试 3 次)" }

example : base_status "超时 (已重试 3 次)" = "超时" := by decide
example : base_status "成功 (重试 2 次)" = "成功" := by decide
example : base_status "失败: SSLError" = "失败: SSLError" := by decide

/-- C3 counterexample: in a run with two targets where one task raises, the
collection loop appends nothing for the raising task: only 1 record comes
out of 2 targets, and no `UnknownError` record is created for the lost
target. -/
theorem C3_counterexample :
    [TaskOutcome.ok recSuccess, TaskOutcome.raised "KeyError"].length = 2 ∧
    (collect_results
        [TaskOutcome.ok recSuccess, TaskOutcome.raised "KeyError"]).length = 1 ∧
    collect_results [TaskOutcome.ok recSuccess, TaskOutcome.raised "KeyError"]
      = [recSuccess] := by
  refine ⟨by decide, by decide, by decide⟩

/-- C3 (amended): the collection loop produces exactly one record per task
that settles without raising — its record count equals the number of
non-raising tasks — so the one-record-per-target invariant holds exactly
when no task raises; a raising task is only logged and contributes no
record. -/
theorem C3_records_per_settled_task (outcomes : List TaskOutcome) :
    (collect_results outcomes).length
      = outcomes.countP (fun o => o.is_ok) := by
  have key : ∀ (l : List TaskOutcome) (acc : List ProbeResult),
      (l.foldl (fun results o =>
        match o with
        | TaskOutcome.ok r => results ++ [r]
        | TaskOutcome.raised _ => results) acc).length
        = acc.length + l.countP (fun o => o.is_ok) := by
    intro l
    induction l with
    | nil => intro acc; simp
    | cons o rest ih =>
      intro acc
      cases o with
      | ok r =>
        simp only [List.foldl_cons, List.countP_cons, ih, TaskOutcome.is_ok,
          List.length_append]
        simp
        omega
      | raised m =>
        simp only [List.foldl_cons, List.countP_cons, ih, TaskOutcome.is_ok]
        simp
  unfold collect_results
  rw [key]
  simp

/-- Adding one status to the tally raises the sum of its counts by one. -/
theorem sum_counts_tally_add (m : List (String × Nat)) (k : String) :
    sum_counts (tally_add m k) = sum_counts m + 1 := by
  induction m with
  | nil => simp [tally_add, sum_counts]
  | cons p rest ih =>
    obtain ⟨q, v⟩ := p
    by_cases h : q = k
    · simp [tally_add, h, sum_counts]
      omega
    · simp [tally_add, h, sum_counts] at ih ⊢
      omega

/-- After adding `k` to the tally, the count stored at `k` has grown by one
and every other count is unchanged. -/
theorem lookup0_tally_add (m : List (String × Nat)) (k k' : String) :
    lookup0 (tally_add m k) k' = lookup0 m k' + (if k = k' then 1 else 0) := by
  induction m with
  | nil =>
    by_cases h : k = k' <;> simp [tally_add, lookup0, h]
  | cons p rest ih =>
    obtain ⟨q, v⟩ := p
    by_cases hq : q = k
    · subst hq
      by_cases h : q = k'
      · subst h
        simp [tally_add, lookup0]
      · simp [tally_add, lookup0, h]
    · by_cases h : q = k'
      · subst h
        simp [tally_add, lookup0, hq, Ne.symm hq]
      · simp [tally_add, lookup0, hq, h, ih]

/-- The tally entry for `k` counts exactly the statuses whose `base_status`
is `k`. -/
theorem lookup0_status_tally (statuses : List String) (k : String) :
    lookup0 (status_tally statuses) k = (statuses.map base_status).count k := by
  have key : ∀ (l : List String) (m : List (String × Nat)),
      lookup0 (l.foldl (fun m s => tally_add m (base_status s)) m) k
        = lookup0 m k + (l.map base_status).count k := by
    intro l
    induction l with
    | nil => intro m; simp
    | cons s rest ih =>
      intro m
      simp only [List.foldl_cons, List.map_cons, List.count_cons]
      rw [ih, lookup0_tally_add]
      by_cases h : base_status s = k <;> simp [h] <;> omega
  unfold status_tally
  rw [key]
  simp [lookup0]

/-- The counts of the tally sum to the number of tallied statuses. -/
theorem sum_counts_status_tally (statuses : List String) :
    sum_counts (status_tally statuses) = statuses.length := by
  have key : ∀ (l : List String) (m : List (String × Nat)),
      sum_counts (l.foldl (fun m s => tally_add m (base_status s)) m)
        = sum_counts m + l.length := by
    intro l
    induction l with
    | nil => intro m; simp
    | cons s rest ih =>
      intro m
      simp only [List.foldl_cons, List.length_cons]
      rw [ih, sum_counts_tally_add]
      omega
  unfold status_tally
  rw [key]
  simp [sum_counts]

/-- C7: over a completed result set (one record per target, so record count
equals the target count), the status tally groups the records by
`base_status` — the status cell with its retry annotation stripped at the
first `" ("` — with each tally entry counting exactly the records of that
base status; the counts sum to the total target count; and the success
percentage is `100 * successCount / totalCount` (the `:.2f` rendering
abstracted to the rational value). -/
theorem C7_tally_sums (results : List ProbeResult) (total : Nat)
    (hcomplete : results.length = total) :
    (∀ k, lookup0 (summarize results total).counts k
        = ((results.map fun r => r.status).map base_status).count k) ∧
    sum_counts (summarize results total).counts = total ∧
    (summarize results total).success_count
      = ((results.map fun r => r.status).map base_status).count "成功" ∧
    (summarize results total).success_pct
      = 100 * ((summarize results total).success_count : ℚ) / (total : ℚ) := by
  refine ⟨?_, ?_, ?_, ?_⟩
  · intro k
    exact lookup0_status_tally _ k
  · have h := sum_counts_status_tally (results.map fun r => r.status)
    simpa [hcomplete] using h
  · exact lookup0_status_tally _ "成功"
  · simp only [summarize]
    ring

/-- Concrete two-record result set: one success, one annotated timeout. -/
def sampleResults : List ProbeResult := [recSuccess, recTimeout]

/-- C7 witness: the tally of the concrete result set groups by stripped
status, sums to the target count 2, and the percentage formula holds. -/
theorem C7_tally_witness :
    lookup0 (summarize sampleResults 2).counts "超时"
      = ((sampleResults.map fun r => r.status).map base_status).count "超时" ∧
    sum_counts (summarize sampleResults 2).counts = 2 ∧
    (summarize sampleResults 2).success_count
      = ((sampleResults.map fun r => r.status).map base_status).count "成功" ∧
    (summarize sampleResults 2).success_pct
      = 100 * ((summarize sampleResults 2).success_count : ℚ)
          / (((2 : Nat)) : ℚ) :=
  ⟨(C7_tally_sums sampleResults 2 (by decide)).1 "超时",
   (C7_tally_sums sampleResults 2 (by decide)).2.1,
   (C7_tally_sums sampleResults 2 (by decide)).2.2.1,
   (C7_tally_sums sampleResults 2 (by decide)).2.2.2⟩

/-- The ranked table and the sorted table have one row per record. -/
theorem main_ranked_length (results : List ProbeResult) :
    (main_ranked results).length = (sort_by_port results).length := by
  simp [main_ranked, add_ranks]

/-- Row `i` of the ranked table is the rank `i + 1` paired with row `i` of
the port-sorted table. -/
theorem main_ranked_get (results : List ProbeResult) (i : Nat)
    (hi : i < (main_ranked results).length)
    (hi' : i < (sort_by_port results).length) :
    (main_ranked results).get ⟨i, hi⟩
      = (i + 1, (sort_by_port results).get ⟨i, hi'⟩) := by
  simp [main_ranked, add_ranks, List.get_eq_getElem, List.getElem_map,
    List.getElem_enum]

/-- C8: in the ranked output table, a record with a smaller port strictly
precedes one with a larger port, its freshly assigned 1-based rank is its
row index plus one and is strictly smaller, and the rank column is exactly
`1..N` in sorted-by-port order. -/
theorem C8_port_order_ranks (results : List ProbeResult) (i j : Nat)
    (hi : i < (main_ranked results).length)
    (hj : j < (main_ranked results).length)
    (hport : ((main_ranked results).get ⟨i, hi⟩).snd.port
        < ((main_ranked results).get ⟨j, hj⟩).snd.port) :
    i < j ∧
    ((main_ranked results).get ⟨i, hi⟩).fst = i + 1 ∧
    ((main_ranked results).get ⟨j, hj⟩).fst = j + 1 ∧
    ((main_ranked results).get ⟨i, hi⟩).fst
      < ((main_ranked results).get ⟨j, hj⟩).fst ∧
    (main_ranked results).map Prod.fst = List.range' 1 results.length := by
  have hlen := main_ranked_length results
  have hi' : i < (sort_by_port results).length := hlen ▸ hi
  have hj' : j < (sort_by_port results).length := hlen ▸ hj
  have egi := main_ranked_get results i hi hi'
  have egj := main_ranked_get results j hj hj'
  haveI instTot : IsTotal ProbeResult (fun a b => a.port ≤ b.port) :=
    ⟨fun a b => Nat.le_total a.port b.port⟩
  haveI instTrans : IsTrans ProbeResult (fun a b => a.port ≤ b.port) :=
    ⟨fun a b c h1 h2 => Nat.le_trans h1 h2⟩
  have hsorted : List.Sorted (fun a b : ProbeResult => a.port ≤ b.port)
      (sort_by_port results) := List.sorted_insertionSort _ results
  have hij : i < j := by
    rcases Nat.lt_trichotomy i j with h | h | h
    · exact h
    · exfalso
      subst h
      rw [egi] at hport
      exact Nat.lt_irrefl _ hport
    · exfalso
      have hle := hsorted.rel_get_of_lt
        (show (⟨j, hj'⟩ : Fin (sort_by_port results).length) < ⟨i, hi'⟩ from
          Fin.mk_lt_mk.mpr h)
      have hle' : ((sort_by_port results).get ⟨j, hj'⟩).port
          ≤ ((sort_by_port results).get ⟨i, hi'⟩).port := hle
      rw [egi, egj] at hport
      simp only [] at hport
      omega
  have hmap : (main_ranked results).map Prod.fst = List.range' 1 results.length := by
    have h1 : (main_ranked results).map Prod.fst
        = ((sort_by_port results).enum.map Prod.fst).map (fun x => x + 1) := by
      simp only [main_ranked, add_ranks, List.map_map]
      rfl
    rw [h1, List.enum_map_fst, List.range'_eq_map_range]
    have h2 : (sort_by_port results).length = results.length := by
      simp [sort_by_port]
    rw [h2]
    exact List.map_congr_left (fun a _ => Nat.add_comm a 1)
  refine ⟨hij, ?_, ?_, ?_, hmap⟩
  · rw [egi]
  · rw [egj]
  · rw [egi, egj]
    simpa using hij

/-- C8 witness: on a concrete two-record set given in descending port order,
the ranked table sorts ascending and assigns ranks 1 and 2. -/
theorem C8_port_order_witness :
    (0 : Nat) < 1 ∧
    ((main_ranked [recTimeout, recSuccess]).get ⟨0, by decide⟩).fst = 0 + 1 ∧
    ((main_ranked [recTimeout, recSuccess]).get ⟨1, by decide⟩).fst = 1 + 1 ∧
    ((main_ranked [recTimeout, recSuccess]).get ⟨0, by decide⟩).fst
      < ((main_ranked [recTimeout, recSuccess]).get ⟨1, by decide⟩).fst ∧
    (main_ranked [recTimeout, recSuccess]).map Prod.fst
      = List.range' 1 ([recTimeout, recSuccess] : List ProbeResult).length :=
  C8_port_order_ranks [recTimeout, recSuccess] 0 1 (by decide) (by decide)
    (by decide)
